import Mathlib

/-!
# Shallow embedding of the venom_memory core

This file embeds the core of the `venom_memory_rs` shared-memory IPC
library (files `src/shm.rs`, `src/seqlock.rs`, `src/mpsc_queue.rs`,
`src/channel.rs`) as executable Lean definitions and proves the spec's
claims about it.

Modelling conventions:
* machine integers (`u32`, `u64`, `usize` on a 64-bit target) are `Nat`
  with explicit `% 2^32` / `% 2^64` at the operations where the Rust code
  can wrap;
* shared-memory byte regions are `List Nat` (each element a byte value);
* a Rust operation that can panic (division by zero, unsigned
  subtraction underflow) is embedded in `Except Unit`, the `.error` case
  standing for the panic;
* the claims are all sequential ("no concurrent write"), so atomic
  loads/stores/fetch-adds are embedded as plain state updates, and a
  seqlock read loop that would spin forever on an odd sequence value is
  embedded as `Option.none`.
-/

/-- 2^64, the modulus of `u64` / `usize` arithmetic. -/
def U64 : Nat := 2 ^ 64

/-- 2^32, the modulus of `u32` arithmetic. -/
def U32 : Nat := 2 ^ 32

/-- `(len as u64).to_le_bytes()`: the 8 little-endian bytes of `n`
(computed modulo 2^64 by construction). -/
def leBytes8 (n : Nat) : List Nat :=
  [n % 256, n / 2 ^ 8 % 256, n / 2 ^ 16 % 256, n / 2 ^ 24 % 256,
   n / 2 ^ 32 % 256, n / 2 ^ 40 % 256, n / 2 ^ 48 % 256, n / 2 ^ 56 % 256]

/-- `u64::from_le_bytes` on the first 8 bytes of a list (missing bytes
read as 0, matching a copy out of a zero-initialized buffer). -/
def fromLE8 (l : List Nat) : Nat :=
  l.getD 0 0 + 2 ^ 8 * l.getD 1 0 + 2 ^ 16 * l.getD 2 0 + 2 ^ 24 * l.getD 3 0 +
  2 ^ 32 * l.getD 4 0 + 2 ^ 40 * l.getD 5 0 + 2 ^ 48 * l.getD 6 0 + 2 ^ 56 * l.getD 7 0

theorem leBytes8_length (n : Nat) : (leBytes8 n).length = 8 := rfl

theorem fromLE8_leBytes8 (n : Nat) (h : n < U64) : fromLE8 (leBytes8 n) = n := by
  simp only [fromLE8, leBytes8, List.getD, List.get?, Option.getD_some, U64] at *
  omega

/-! ## SeqLock (src/seqlock.rs)

The `SeqLockHeader` (`sequence`, `data_size`) together with the payload
region that follows it is embedded as one record.  `data` is the payload
region: exactly `data_size` bytes in a well-formed channel. -/

structure SeqLock where
  /-- `sequence : AtomicU64` — odd = write in progress, even = stable. -/
  sequence : Nat
  /-- `data_size : usize` — capacity of the payload region. -/
  data_size : Nat
  /-- the payload region bytes. -/
  data : List Nat
  deriving DecidableEq, Repr

namespace SeqLock

/-- `SeqLockHeader::init` followed by the zeroed payload region the
channel creator maps: sequence 0, `data_size` bytes of zeros. -/
def init (data_size : Nat) : SeqLock :=
  { sequence := 0, data_size := data_size, data := List.replicate data_size 0 }

/-- `SeqLockWriter::write`: truncate the payload to `data_size`
(`len = data.len().min(max_size)`), bump the sequence twice (each
`fetch_add(1)` wraps at 2^64), copy `len` bytes over the start of the
payload region. -/
def write (s : SeqLock) (payload : List Nat) : SeqLock :=
  let len := min payload.length s.data_size
  { s with
    sequence := ((s.sequence + 1) % U64 + 1) % U64
    data := payload.take len ++ s.data.drop len }

/-- `SeqLockWriter::write_with_len`: computes `max_size - 8` on a
`usize`; when `data_size < 8` that unsigned subtraction underflows
(a panic in a checked build), embedded as `.error ()`.  Otherwise the
8-byte little-endian length prefix is stored, then
`len = data.len().min(max_size - 8)` payload bytes at offset 8. -/
def write_with_len (s : SeqLock) (payload : List Nat) : Except Unit SeqLock :=
  if s.data_size < 8 then .error ()
  else
    let len := min payload.length (s.data_size - 8)
    .ok { s with
          sequence := ((s.sequence + 1) % U64 + 1) % U64
          data := leBytes8 len ++ (payload.take len ++ s.data.drop (8 + len)) }

/-- `SeqLockReader::read_with_len` with no concurrent writer: if the
sequence is odd the code spins forever (embedded `none`); otherwise the
first consistent iteration parses the 8-byte prefix, copies
`min(len, buf.len())` bytes into the buffer and returns `len`.  Result:
(returned length, buffer contents after the call). -/
def read_with_len (s : SeqLock) (buf : List Nat) : Option (Nat × List Nat) :=
  if s.sequence % 2 = 1 then none
  else
    let len := fromLE8 (s.data.take 8)
    let copy_len := min len buf.length
    some (len, (s.data.drop 8).take copy_len ++ buf.drop copy_len)

end SeqLock

/-! ## MPSC command queue (src/mpsc_queue.rs) -/

/-- `MAX_CMD_SIZE` -/
def MAX_CMD_SIZE : Nat := 4096

/-- `MAX_SLOTS` (declared cap; note `DaemonChannel::create` never checks it). -/
def MAX_SLOTS : Nat := 64

/-- Slot states `EMPTY = 0, WRITING = 1, READY = 2, PROCESSING = 3`. -/
def slot_state.EMPTY : Nat := 0
def slot_state.WRITING : Nat := 1
def slot_state.READY : Nat := 2
def slot_state.PROCESSING : Nat := 3

/-- One `CommandSlot`: state byte, producer id, command length, and the
4096-byte command payload array. -/
structure CommandSlot where
  state : Nat
  client_id : Nat
  cmd_len : Nat
  cmd_data : List Nat
  deriving DecidableEq, Repr

instance : Inhabited CommandSlot :=
  ⟨{ state := 0, client_id := 0, cmd_len := 0, cmd_data := [] }⟩

/-- `MpscQueueHeader` plus the slot array that follows it. -/
structure MpscQueue where
  /-- `write_idx : AtomicU64` — slot-claim counter. -/
  write_idx : Nat
  /-- `read_idx : AtomicU64` — consumer cursor. -/
  read_idx : Nat
  /-- `num_slots : usize`. -/
  num_slots : Nat
  slots : List CommandSlot
  deriving DecidableEq, Repr

namespace MpscQueue

/-- `MpscQueueHeader::init` on a freshly zeroed region: indices 0, all
slots EMPTY with zeroed metadata and zeroed `cmd_data`. -/
def init (num_slots : Nat) : MpscQueue :=
  { write_idx := 0, read_idx := 0, num_slots := num_slots,
    slots := List.replicate num_slots
      { state := slot_state.EMPTY, client_id := 0, cmd_len := 0,
        cmd_data := List.replicate MAX_CMD_SIZE 0 } }

/-- `MpscProducer::try_push`.  Mirrors the source step by step:
oversize commands fail before touching the queue; the claim
`fetch_add` advances `write_idx` unconditionally (wrapping at 2^64) and
the slot index is `idx % num_slots` — a division by zero, hence a Rust
panic (embedded `.error ()`), when `num_slots = 0`; the
EMPTY→WRITING compare-and-swap failing returns `false` with the index
already advanced; on success the slot gets the producer's id, the
command length and bytes, and state READY.  Result: (return value,
queue after the call). -/
def try_push (q : MpscQueue) (client_id : Nat) (cmd : List Nat) :
    Except Unit (Bool × MpscQueue) :=
  if cmd.length > MAX_CMD_SIZE then .ok (false, q)
  else if q.num_slots = 0 then .error ()
  else
    let idx := q.write_idx
    let q1 : MpscQueue := { q with write_idx := (q.write_idx + 1) % U64 }
    let slot_idx := idx % q.num_slots
    let slot := q1.slots.getD slot_idx default
    if slot.state = slot_state.EMPTY then
      let slot1 : CommandSlot :=
        { state := slot_state.READY, client_id := client_id,
          cmd_len := cmd.length,
          cmd_data := cmd ++ slot.cmd_data.drop cmd.length }
      .ok (true, { q1 with slots := q1.slots.set slot_idx slot1 })
    else
      .ok (false, q1)

/-- `MpscConsumer::try_pop`.  Slot index is `read_idx % num_slots`
(division by zero when `num_slots = 0`, embedded `.error ()`); a slot
not READY returns `none` with nothing changed; otherwise
`min(cmd_len, buf.len())` bytes are copied out, the slot is released to
EMPTY and `read_idx` advances (wrapping at 2^64).  Result:
(`Option (client_id, cmd_len)`, queue after the call, buffer after the
call). -/
def try_pop (q : MpscQueue) (buf : List Nat) :
    Except Unit (Option (Nat × Nat) × MpscQueue × List Nat) :=
  if q.num_slots = 0 then .error ()
  else
    let slot_idx := q.read_idx % q.num_slots
    let slot := q.slots.getD slot_idx default
    if slot.state ≠ slot_state.READY then .ok (none, q, buf)
    else
      let copy_len := min slot.cmd_len buf.length
      let buf1 := slot.cmd_data.take copy_len ++ buf.drop copy_len
      let slot1 : CommandSlot := { slot with state := slot_state.EMPTY }
      .ok (some (slot.client_id, slot.cmd_len),
           { q with slots := q.slots.set slot_idx slot1,
                    read_idx := (q.read_idx + 1) % U64 },
           buf1)

end MpscQueue

/-! ## Errors (src/error.rs)

Only the payload data an error carries is modelled; the `name` strings
are modelled by their lengths where a length limit is what is checked. -/

inductive VenomError where
  /-- `ShmCreate { name, source }` (OS error opaque). -/
  | shmCreate (nameLen : Nat)
  /-- `ShmOpen { name, source }`. -/
  | shmOpen (nameLen : Nat)
  /-- `InvalidMagic { expected, got }`. -/
  | invalidMagic (expected got : Nat)
  /-- `NamespaceTooLong { max, got }`. -/
  | namespaceTooLong (max got : Nat)
  deriving DecidableEq, Repr

/-! ## Shared-memory object (src/shm.rs)

`VenomShm::create` is the OS-facing path: `shm_open` with
CREATE|EXCL first and, on failure (the object already exists), a plain
`shm_open` of the existing object; then `ftruncate(size)`, `mmap`, and an
unconditional `write_bytes(addr, 0, size)`.  The OS world is embedded as
`Option (List Nat)`: `none` = no object of that name exists (exclusive
create succeeds, the fresh object is zero-filled by `ftruncate`),
`some existing` = an object with those bytes already exists (exclusive
create fails, the open fallback runs, `ftruncate(size)` keeps the first
`size` bytes and zero-extends). -/

structure VenomShm where
  contents : List Nat
  size : Nat
  nameLen : Nat
  is_owner : Bool
  deriving DecidableEq, Repr

/-- `MAX_NAME_LEN = 255 - "/venom_".len() = 248`. -/
def MAX_NAME_LEN : Nat := 255 - 7

namespace VenomShm

/-- `VenomShm::create(name, size)`. -/
def create (nameLen : Nat) (world : Option (List Nat)) (size : Nat) :
    Except VenomError VenomShm :=
  if nameLen > MAX_NAME_LEN then
    .error (.namespaceTooLong MAX_NAME_LEN nameLen)
  else
    -- create-exclusive, falling back to opening the existing object
    let mapped : List Nat :=
      match world with
      | none => List.replicate size 0
      | some existing => existing.take size ++ List.replicate (size - existing.length) 0
    -- `unsafe { std::ptr::write_bytes(addr.as_ptr(), 0, size) }` — runs
    -- on BOTH paths, after the mapping
    .ok { contents := List.replicate mapped.length 0, size := size,
          nameLen := nameLen, is_owner := true }

end VenomShm

/-! ## Channel (src/channel.rs)

`repr(C)` layout sizes on the 64-bit target the code assumes
(`usize` = 8 bytes, atomics have their integer's size and alignment):

* `ChannelHeader`: `magic:u32@0, version:u32@4, data_size:usize@8,
  cmd_slots@16, max_clients@24, next_client_id:AtomicU32@32,`
  4 bytes padding, `seqlock_offset@40, cmd_queue_offset@48,
  _pad:[u8;16]@56` — size 72;
* `SeqLockHeader`: `sequence:CacheAligned<AtomicU64>@0` (size 64),
  `data_size@64, _pad:[u8;48]@72` — size 120 rounded to alignment 64 =
  128;
* `MpscQueueHeader`: `write_idx@0` (64), `read_idx@64` (64),
  `num_slots@128, _pad:[u8;56]@136` — size 192;
* `CommandSlot`: `state:AtomicU8@0, client_id:AtomicU32@4, cmd_len@8,
  _pad:[u8;55]@12, cmd_data:[u8;4096]@67` — size 4163 rounded to
  alignment 4 = 4164. -/

def VENOM_MAGIC : Nat := 0x564E4F4D
def VENOM_VERSION : Nat := 2
def DEFAULT_DATA_SIZE : Nat := 64 * 1024
def DEFAULT_CMD_SLOTS : Nat := 32
def CACHE_LINE_SIZE : Nat := 64

def channelHeaderSize : Nat := 72
def seqLockHeaderSize : Nat := 128
def mpscQueueHeaderSize : Nat := 192
def commandSlotSize : Nat := 4164

/-- `MpscQueueHeader::size_for_slots` (usize arithmetic, wrapping). -/
def size_for_slots (num_slots : Nat) : Nat :=
  (mpscQueueHeaderSize + num_slots * commandSlotSize % U64) % U64

/-- `(size + CACHE_LINE_SIZE - 1) & !(CACHE_LINE_SIZE - 1)` on `usize`:
the addition wraps at 2^64; masking the low 6 bits off a value below
2^64 is the same as rounding down to a multiple of 64. -/
def alignCL (size : Nat) : Nat :=
  ((size + CACHE_LINE_SIZE - 1) % U64) / 64 * 64

/-- `ChannelConfig`. -/
structure ChannelConfig where
  data_size : Nat
  cmd_slots : Nat
  max_clients : Nat
  deriving DecidableEq, Repr

/-- `ChannelConfig::default()`. -/
def ChannelConfig.default : ChannelConfig :=
  { data_size := DEFAULT_DATA_SIZE, cmd_slots := DEFAULT_CMD_SLOTS,
    max_clients := 16 }

/-- `ChannelHeader::total_size` (usize arithmetic, wrapping). -/
def ChannelConfig.total_size (config : ChannelConfig) : Nat :=
  let header_size := channelHeaderSize
  let seqlock_size := (seqLockHeaderSize + config.data_size) % U64
  let cmd_queue_size := size_for_slots config.cmd_slots
  (alignCL header_size + alignCL seqlock_size % U64 + alignCL cmd_queue_size % U64) % U64

/-- The `ChannelHeader` record at offset 0 of the region. -/
structure ChannelHeader where
  magic : Nat
  version : Nat
  data_size : Nat
  cmd_slots : Nat
  max_clients : Nat
  /-- `next_client_id : AtomicU32`. -/
  next_client_id : Nat
  seqlock_offset : Nat
  cmd_queue_offset : Nat
  deriving DecidableEq, Repr

/-- The header `DaemonChannel::create` stamps: magic, version, the
config's sizes unvalidated, `next_client_id = 1`, and the
cache-line-aligned region offsets. -/
def DaemonChannel.createHeader (config : ChannelConfig) : ChannelHeader :=
  let seqlock_offset := alignCL channelHeaderSize
  let seqlock_size := (seqLockHeaderSize + config.data_size) % U64
  let cmd_queue_offset := (seqlock_offset + alignCL seqlock_size) % U64
  { magic := VENOM_MAGIC, version := VENOM_VERSION,
    data_size := config.data_size, cmd_slots := config.cmd_slots,
    max_clients := config.max_clients, next_client_id := 1,
    seqlock_offset := seqlock_offset, cmd_queue_offset := cmd_queue_offset }

/-- `ShellChannel::connect` on an already-mapped region, reduced to the
state it reads and writes: validate the magic (and nothing else — the
source performs no version comparison), then `fetch_add(1)` on
`next_client_id` (a `u32`, wrapping at 2^32) returns this shell's id. -/
def ShellChannel.connect (h : ChannelHeader) :
    Except VenomError (Nat × ChannelHeader) :=
  if h.magic ≠ VENOM_MAGIC then
    .error (.invalidMagic VENOM_MAGIC h.magic)
  else
    .ok (h.next_client_id,
         { h with next_client_id := (h.next_client_id + 1) % U32 })

/-- `N` consecutive `ShellChannel::connect` calls: the list of client
ids handed out, with the header state threaded through. -/
def ShellChannel.connectN (h : ChannelHeader) :
    Nat → Except VenomError (List Nat × ChannelHeader)
  | 0 => .ok ([], h)
  | n + 1 =>
    match ShellChannel.connect h with
    | .error e => .error e
    | .ok (id, h1) =>
      match ShellChannel.connectN h1 n with
      | .error e => .error e
      | .ok (ids, h2) => .ok (id :: ids, h2)

/-! Concrete inputs used by witnesses and counterexamples. -/

/-- A single-slot queue whose slot is READY (occupied): the next claim's
EMPTY→WRITING compare-and-swap must fail. -/
def occupiedQueue : MpscQueue :=
  { write_idx := 0, read_idx := 0, num_slots := 1,
    slots := [{ state := slot_state.READY, client_id := 5, cmd_len := 1,
                cmd_data := [9] }] }

/-- A region whose first word is not the magic sentinel. -/
def zeroMagicHeader : ChannelHeader :=
  { magic := 0, version := 2, data_size := 64, cmd_slots := 2,
    max_clients := 4, next_client_id := 1, seqlock_offset := 128,
    cmd_queue_offset := 256 }

/-- A header stamped by a creator, except that its layout version field
holds 7 instead of the implementation's `VENOM_VERSION = 2`. -/
def staleVersionHeader : ChannelHeader :=
  { DaemonChannel.createHeader ⟨1024, 2, 4⟩ with version := 7 }

/-- The queue-full backpressure scenario of the spec, on a fresh
2-slot queue with a single producer (id 1) and a non-consuming
consumer: three pushes (of `[7]`, `[8]`, `[9]`), then one pop into a
1-byte buffer, then one more push (of `[10]`).  Collects the outcomes:
(push 1, push 2, push 3, pop result, push after the pop). -/
def queueFullTrace : Except Unit (Bool × Bool × Bool × Option (Nat × Nat) × Bool) := do
  let (b1, q1) ← MpscQueue.try_push (MpscQueue.init 2) 1 [7]
  let (b2, q2) ← MpscQueue.try_push q1 1 [8]
  let (b3, q3) ← MpscQueue.try_push q2 1 [9]
  let (r, q4, _buf1) ← MpscQueue.try_pop q3 [0]
  let (b4, _q5) ← MpscQueue.try_push q4 1 [10]
  pure (b1, b2, b3, r, b4)

/- ======================================================================
   Theorems
   ====================================================================== -/

/-! ### Shared step lemmas for the MPSC queue -/

/-- `try_push` when the claimed slot (index `i`, the claimed
`write_idx` modulo `num_slots`) is EMPTY: returns true, advances
`write_idx` (to `w`, the wrapped increment), publishes the slot as
READY holding the command. -/
theorem MpscQueue.try_push_success (q : MpscQueue) (cid : Nat) (cmd : List Nat)
    (i w : Nat) (hlen : cmd.length ≤ MAX_CMD_SIZE) (hns : q.num_slots ≠ 0)
    (hidx : q.write_idx % q.num_slots = i)
    (hw : (q.write_idx + 1) % U64 = w)
    (hstate : (q.slots.getD i default).state = slot_state.EMPTY) :
    MpscQueue.try_push q cid cmd =
      .ok (true,
        { q with
          write_idx := w,
          slots := q.slots.set i
            { state := slot_state.READY, client_id := cid,
              cmd_len := cmd.length,
              cmd_data := cmd ++
                (q.slots.getD i default).cmd_data.drop cmd.length } }) := by
  subst hidx
  subst hw
  unfold MpscQueue.try_push
  rw [if_neg (by omega), if_neg hns, if_pos hstate]

/-- `try_push` when the claimed slot (index `i`) is not EMPTY: the
compare-and-swap fails, the call returns false, and the only state
change is the already performed `write_idx` fetch-add (to `w`). -/
theorem MpscQueue.try_push_fail (q : MpscQueue) (cid : Nat) (cmd : List Nat)
    (i w : Nat) (hlen : cmd.length ≤ MAX_CMD_SIZE) (hns : q.num_slots ≠ 0)
    (hidx : q.write_idx % q.num_slots = i)
    (hw : (q.write_idx + 1) % U64 = w)
    (hstate : (q.slots.getD i default).state ≠ slot_state.EMPTY) :
    MpscQueue.try_push q cid cmd = .ok (false, { q with write_idx := w }) := by
  subst hidx
  subst hw
  unfold MpscQueue.try_push
  rw [if_neg (by omega), if_neg hns, if_neg hstate]

/-- `try_pop` when the cursor's slot (index `i`, the `read_idx` modulo
`num_slots`) is READY: returns the producer id and stored length,
copies `min(cmd_len, buf.len())` bytes out, releases the slot to EMPTY
and advances `read_idx` (to `r`, the wrapped increment). -/
theorem MpscQueue.try_pop_ready (q : MpscQueue) (buf : List Nat) (i r : Nat)
    (hns : q.num_slots ≠ 0)
    (hidx : q.read_idx % q.num_slots = i)
    (hr : (q.read_idx + 1) % U64 = r)
    (hstate : (q.slots.getD i default).state = slot_state.READY) :
    MpscQueue.try_pop q buf =
      .ok (some ((q.slots.getD i default).client_id,
                 (q.slots.getD i default).cmd_len),
           { q with
             slots := q.slots.set i
               { q.slots.getD i default with state := slot_state.EMPTY },
             read_idx := r },
           (q.slots.getD i default).cmd_data.take
               (min (q.slots.getD i default).cmd_len buf.length) ++
             buf.drop (min (q.slots.getD i default).cmd_len buf.length)) := by
  subst hidx
  subst hr
  unfold MpscQueue.try_pop
  rw [if_neg hns, if_neg (not_ne_iff.mpr hstate)]

/-- C4: a `try_push` whose EMPTY→WRITING compare-and-swap fails returns
false, with `write_idx` nevertheless advanced by 1 by the claim
fetch-add, while `read_idx`, every slot's state, `client_id`, `cmd_len`
and `cmd_data` are unchanged (the result is `q` with only `write_idx`
replaced). -/
theorem c4_failed_cas_advances_write_idx_only (q : MpscQueue) (cid : Nat)
    (cmd : List Nat) (hlen : cmd.length ≤ MAX_CMD_SIZE) (hns : q.num_slots ≠ 0)
    (hstate : (q.slots.getD (q.write_idx % q.num_slots) default).state ≠
      slot_state.EMPTY) :
    MpscQueue.try_push q cid cmd =
      .ok (false, { q with write_idx := (q.write_idx + 1) % U64 }) := by
  unfold MpscQueue.try_push
  rw [if_neg (by omega), if_neg hns, if_neg hstate]

/-- Witness for C4 at a concrete occupied queue. -/
theorem c4_failed_cas_advances_write_idx_only_witness :
    MpscQueue.try_push occupiedQueue 7 [3] =
      .ok (false, { occupiedQueue with
                    write_idx := (occupiedQueue.write_idx + 1) % U64 }) :=
  c4_failed_cas_advances_write_idx_only occupiedQueue 7 [3] (by decide)
    (by decide) (by decide)

/-- C9: `try_push` and `try_pop` take the slot index by an unguarded
`% num_slots`, so with `num_slots = 0` a push that passes the size check
or any pop hits the division by zero (the embedded panic), while with
`num_slots ≥ 1` neither operation can panic; and `DaemonChannel::create`
stamps `cmd_slots` into the header with no validation at all (neither
`≥ 1` nor the `MAX_SLOTS = 64` cap), so `cmd_slots = 0` reaches the
queue unchanged. -/
theorem c9_zero_slots_divide_by_zero :
    (∀ config : ChannelConfig,
       (DaemonChannel.createHeader config).cmd_slots = config.cmd_slots) ∧
    (∀ (q : MpscQueue) (cid : Nat) (cmd : List Nat), q.num_slots = 0 →
       cmd.length ≤ MAX_CMD_SIZE → MpscQueue.try_push q cid cmd = .error ()) ∧
    (∀ (q : MpscQueue) (buf : List Nat), q.num_slots = 0 →
       MpscQueue.try_pop q buf = .error ()) ∧
    (∀ (q : MpscQueue) (cid : Nat) (cmd : List Nat), q.num_slots ≠ 0 →
       (MpscQueue.try_push q cid cmd).isOk = true) ∧
    (∀ (q : MpscQueue) (buf : List Nat), q.num_slots ≠ 0 →
       (MpscQueue.try_pop q buf).isOk = true) := by
  refine ⟨fun config => rfl, ?_, ?_, ?_, ?_⟩
  · intro q cid cmd hz hlen
    unfold MpscQueue.try_push
    rw [if_neg (by omega), if_pos hz]
  · intro q buf hz
    unfold MpscQueue.try_pop
    rw [if_pos hz]
  · intro q cid cmd hns
    unfold MpscQueue.try_push
    split
    · rfl
    · dsimp only
      split <;> rfl
  · intro q buf hns
    unfold MpscQueue.try_pop
    rw [if_neg hns]
    dsimp only
    split <;> rfl

/-- Witness for C9: a queue created for a channel configured with
`cmd_slots = 0` panics on the first push and the first pop. -/
theorem c9_zero_slots_divide_by_zero_witness :
    (DaemonChannel.createHeader ⟨1024, 0, 4⟩).cmd_slots = 0 ∧
    MpscQueue.try_push (MpscQueue.init 0) 1 [7] = .error () ∧
    MpscQueue.try_pop (MpscQueue.init 0) [0] = .error () ∧
    (MpscQueue.try_push (MpscQueue.init 2) 1 [7]).isOk = true ∧
    (MpscQueue.try_pop (MpscQueue.init 2) [0]).isOk = true :=
  ⟨c9_zero_slots_divide_by_zero.1 ⟨1024, 0, 4⟩,
   c9_zero_slots_divide_by_zero.2.1 (MpscQueue.init 0) 1 [7] rfl (by decide),
   c9_zero_slots_divide_by_zero.2.2.1 (MpscQueue.init 0) [0] rfl,
   c9_zero_slots_divide_by_zero.2.2.2.1 (MpscQueue.init 2) 1 [7] (by decide),
   c9_zero_slots_divide_by_zero.2.2.2.2 (MpscQueue.init 2) [0] (by decide)⟩

/-- C10: `write_with_len` computes `max_size - 8` on a `usize`, so a
channel with `data_size < 8` underflows on the first length-prefixed
write (the embedded panic), while `data_size ≥ 8` never panics; and
`DaemonChannel::create` enforces no minimum: the configured `data_size`
reaches the header and the seqlock sub-header unchanged. -/
theorem c10_small_data_size_underflow :
    (∀ (s : SeqLock) (p : List Nat), s.data_size < 8 →
       SeqLock.write_with_len s p = .error ()) ∧
    (∀ (s : SeqLock) (p : List Nat), 8 ≤ s.data_size →
       (SeqLock.write_with_len s p).isOk = true) ∧
    (∀ config : ChannelConfig,
       (DaemonChannel.createHeader config).data_size = config.data_size) ∧
    (∀ data_size : Nat, (SeqLock.init data_size).data_size = data_size) := by
  refine ⟨?_, ?_, fun config => rfl, fun data_size => rfl⟩
  · intro s p hlt
    unfold SeqLock.write_with_len
    rw [if_pos hlt]
  · intro s p hge
    unfold SeqLock.write_with_len
    rw [if_neg (by omega)]
    rfl

/-- Witness for C10: `data_size = 4` panics on `write_with_len`,
`data_size = 8` does not. -/
theorem c10_small_data_size_underflow_witness :
    SeqLock.write_with_len (SeqLock.init 4) [1] = .error () ∧
    (SeqLock.write_with_len (SeqLock.init 8) [1]).isOk = true ∧
    (DaemonChannel.createHeader ⟨4, 2, 4⟩).data_size = 4 :=
  ⟨c10_small_data_size_underflow.1 (SeqLock.init 4) [1] (by decide),
   c10_small_data_size_underflow.2.1 (SeqLock.init 8) [1] (by decide),
   c10_small_data_size_underflow.2.2.1 ⟨4, 2, 4⟩⟩

/-- C1 counterexample: attaching to a region whose header carries the
correct magic but layout version 7 ≠ `VENOM_VERSION` SUCCEEDS —
`ShellChannel::connect` validates the magic only and performs no
version comparison, so the claimed version-mismatch failure does not
happen. -/
theorem c1_version_mismatch_connect_succeeds :
    (ShellChannel.connect staleVersionHeader).isOk = true ∧
    staleVersionHeader.magic = VENOM_MAGIC ∧
    staleVersionHeader.version ≠ VENOM_VERSION := by decide

/-- C1 amended: `connect` fails with `InvalidMagic{expected, got}`
exactly when the stored magic is not the sentinel `0x564E4F4D`; when
the magic matches, the attach succeeds unconditionally — the stored
layout version is never compared against the implementation's
`VENOM_VERSION = 2`, so a version mismatch is not detected. -/
theorem c1_connect_checks_magic_only (h : ChannelHeader) :
    (h.magic ≠ VENOM_MAGIC →
       ShellChannel.connect h = .error (.invalidMagic VENOM_MAGIC h.magic)) ∧
    (h.magic = VENOM_MAGIC →
       ShellChannel.connect h =
         .ok (h.next_client_id,
              { h with next_client_id := (h.next_client_id + 1) % U32 })) := by
  constructor
  · intro hm
    unfold ShellChannel.connect
    rw [if_pos hm]
  · intro hm
    unfold ShellChannel.connect
    rw [if_neg (not_ne_iff.mpr hm)]

/-- Witness for C1 amended: a zero magic is rejected with the expected
and got values; the stale-version header with good magic attaches. -/
theorem c1_connect_checks_magic_only_witness :
    ShellChannel.connect zeroMagicHeader =
      .error (.invalidMagic VENOM_MAGIC zeroMagicHeader.magic) ∧
    ShellChannel.connect staleVersionHeader =
      .ok (staleVersionHeader.next_client_id,
           { staleVersionHeader with
             next_client_id := (staleVersionHeader.next_client_id + 1) % U32 }) :=
  ⟨(c1_connect_checks_magic_only zeroMagicHeader).1 (by decide),
   (c1_connect_checks_magic_only staleVersionHeader).2 (by decide)⟩

/-- C7: an overlong `SeqLockWriter::write` silently truncates — with
`len(p) > data_size` exactly the first `data_size` bytes of `p` are
copied into the payload region (which therefore equals
`p.take data_size`; nothing of `p` beyond `data_size` is written
anywhere), and the call returns normally: `write` is total, it signals
no error. -/
theorem c7_overlong_write_truncates (s : SeqLock) (p : List Nat)
    (hlong : s.data_size < p.length) (hdata : s.data.length = s.data_size) :
    SeqLock.write s p =
      { s with sequence := ((s.sequence + 1) % U64 + 1) % U64,
               data := p.take s.data_size } := by
  unfold SeqLock.write
  have hmin : min p.length s.data_size = s.data_size := by omega
  rw [hmin]
  have hdrop : s.data.drop s.data_size = [] := by
    rw [← hdata]
    exact List.drop_length s.data
  dsimp only
  rw [hdrop, List.append_nil]

/-- Witness for C7: a 6-byte payload into a 4-byte region leaves
exactly its first 4 bytes. -/
theorem c7_overlong_write_truncates_witness :
    SeqLock.write (SeqLock.init 4) [1, 2, 3, 4, 5, 6] =
      { SeqLock.init 4 with
        sequence := (((SeqLock.init 4).sequence + 1) % U64 + 1) % U64,
        data := [1, 2, 3, 4, 5, 6].take (SeqLock.init 4).data_size } :=
  c7_overlong_write_truncates (SeqLock.init 4) [1, 2, 3, 4, 5, 6] (by decide)
    (by decide)

/-- Two is not zero, in the shape the queue-trace side conditions
reduce to. -/
theorem two_ne_zero_nat : (2 : Nat) ≠ 0 := by decide

/-- Taking at most the left part of an append stays in the left part. -/
theorem take_append_le {α : Type} (l1 l2 : List α) (n : Nat)
    (h : n ≤ l1.length) : (l1 ++ l2).take n = l1.take n := by
  rw [List.take_append_eq_append_take, Nat.sub_eq_zero_of_le h, List.take_zero,
    List.append_nil]

/-- C2: sequential round-trip through the length-prefixed seqlock
frame.  For any payload `p` with `len(p) ≤ data_size − 8`, on a
well-formed frame (capacity ≥ 8, payload region of exactly `data_size`
bytes, even sequence, u64-valued fields), `write_with_len p` succeeds
and a subsequent `read_with_len` with no concurrent write returns
exactly `len(p)`, with the first `min(len(p), buf.len)` bytes of the
reader's buffer equal to the corresponding prefix of `p`; with
`buf.len ≥ len(p)` the buffer starts with a full copy of `p`. -/
theorem c2_write_read_with_len_roundtrip (s : SeqLock) (p buf : List Nat)
    (hcap : 8 ≤ s.data_size) (hds : s.data_size < 2 ^ 64)
    (hp : p.length ≤ s.data_size - 8)
    (hdata : s.data.length = s.data_size)
    (hseq : s.sequence % 2 = 0) :
    ∃ s1 r, SeqLock.write_with_len s p = .ok s1 ∧
      SeqLock.read_with_len s1 buf = some (p.length, r) ∧
      r.take (min p.length buf.length) = p.take (min p.length buf.length) ∧
      r.length = buf.length ∧
      (p.length ≤ buf.length → r.take p.length = p) := by
  have hmin : min p.length (s.data_size - 8) = p.length := by omega
  have hodd : ¬((s.sequence + 1) % U64 + 1) % U64 % 2 = 1 := by
    unfold U64
    omega
  refine ⟨({ s with
             sequence := ((s.sequence + 1) % U64 + 1) % U64
             data := leBytes8 p.length ++ (p ++ s.data.drop (8 + p.length)) } :
            SeqLock),
          p.take (min p.length buf.length) ++
            buf.drop (min p.length buf.length),
          ?_, ?_, ?_, ?_, ?_⟩
  · unfold SeqLock.write_with_len
    rw [if_neg (by omega)]
    dsimp only
    rw [hmin, List.take_length]
  · unfold SeqLock.read_with_len
    rw [if_neg hodd]
    dsimp only
    rw [List.take_left' (leBytes8_length p.length),
      fromLE8_leBytes8 p.length (by unfold U64; omega),
      List.drop_left' (leBytes8_length p.length),
      take_append_le p (s.data.drop (8 + p.length)) (min p.length buf.length)
        (by omega)]
  · rw [List.take_left' (by rw [List.length_take]; omega)]
  · simp only [List.length_append, List.length_take, List.length_drop]
    omega
  · intro hbl
    have hc : min p.length buf.length = p.length := by omega
    rw [hc, List.take_length, List.take_left]

/-- Witness for C2: payload `[1, 2, 3]` through a fresh 16-byte frame
into a 4-byte buffer. -/
theorem c2_write_read_with_len_roundtrip_witness :
    ∃ s1 r, SeqLock.write_with_len (SeqLock.init 16) [1, 2, 3] = .ok s1 ∧
      SeqLock.read_with_len s1 [0, 0, 0, 0] = some (3, r) ∧
      r.take (min 3 4) = [1, 2, 3].take (min 3 4) ∧
      r.length = 4 ∧
      (3 ≤ 4 → r.take 3 = [1, 2, 3]) :=
  c2_write_read_with_len_roundtrip (SeqLock.init 16) [1, 2, 3] [0, 0, 0, 0]
    (by decide) (by decide) (by decide) (by decide) (by decide)

/-- C5 counterexample: a `create` that falls back to opening an
already-existing region does NOT leave that region's contents in
place — the mapping is zero-filled unconditionally (`write_bytes` runs
on both paths), so recreating over existing bytes `[42, 7]` yields
`[0, 0]`. -/
theorem c5_recreate_zeroes_existing_contents :
    VenomShm.create 4 (some [42, 7]) 2 =
      .ok { contents := [0, 0], size := 2, nameLen := 4, is_owner := true } ∧
    [42, 7] ≠ ([0, 0] : List Nat) :=
  ⟨rfl, by decide⟩

/-- C5 amended: `create` attempts create-exclusive first and falls back
to opening the existing object, but the region is zero-initialized
unconditionally after mapping — on first creation AND on the
already-exists fallback — and in both cases the handle is flagged
`is_owner = true`. -/
theorem c5_create_zero_fills_both_paths (nameLen : Nat)
    (world : Option (List Nat)) (size : Nat) (h : nameLen ≤ MAX_NAME_LEN) :
    VenomShm.create nameLen world size =
      .ok { contents := List.replicate size 0, size := size,
            nameLen := nameLen, is_owner := true } := by
  unfold VenomShm.create
  rw [if_neg (by omega)]
  cases world with
  | none =>
    dsimp only
    rw [List.length_replicate]
  | some existing =>
    have hlen :
        (existing.take size ++ List.replicate (size - existing.length) 0).length =
          size := by
      simp only [List.length_append, List.length_take, List.length_replicate]
      omega
    dsimp only
    rw [hlen]

/-- Witness for C5 amended, on the already-exists fallback path. -/
theorem c5_create_zero_fills_both_paths_witness :
    VenomShm.create 5 (some [1, 2, 3]) 8 =
      .ok { contents := List.replicate 8 0, size := 8, nameLen := 5,
            is_owner := true } :=
  c5_create_zero_fills_both_paths 5 (some [1, 2, 3]) 8 (by decide)

/-- `connect` on a valid magic: hands out `next_client_id` and bumps it
(u32 fetch-add). -/
theorem ShellChannel.connect_ok (h : ChannelHeader)
    (hm : h.magic = VENOM_MAGIC) :
    ShellChannel.connect h =
      .ok (h.next_client_id,
           { h with next_client_id := (h.next_client_id + 1) % U32 }) := by
  unfold ShellChannel.connect
  rw [if_neg (not_ne_iff.mpr hm)]

/-- Consecutive connects on any valid-magic header hand out the
arithmetic progression starting at the current `next_client_id`. -/
theorem ShellChannel.connectN_range (n : Nat) :
    ∀ h : ChannelHeader, h.magic = VENOM_MAGIC →
    h.next_client_id < U32 → h.next_client_id + n ≤ U32 →
    ShellChannel.connectN h n =
      .ok (List.range' h.next_client_id n,
           { h with next_client_id := (h.next_client_id + n) % U32 }) := by
  induction n with
  | zero =>
    intro h hm hlt hle
    rw [ShellChannel.connectN, Nat.add_zero, Nat.mod_eq_of_lt hlt]
    exact rfl
  | succ n ih =>
    intro h hm hlt hle
    rw [ShellChannel.connectN, ShellChannel.connect_ok h hm]
    dsimp only
    by_cases hk : h.next_client_id + 1 < U32
    · rw [Nat.mod_eq_of_lt hk,
        ih { h with next_client_id := h.next_client_id + 1 } hm hk
          (by show h.next_client_id + 1 + n ≤ U32; omega)]
      dsimp only
      have hadd : h.next_client_id + 1 + n = h.next_client_id + (n + 1) := by
        omega
      rw [hadd]
      exact rfl
    · have hn0 : n = 0 := by omega
      subst hn0
      rw [ShellChannel.connectN]
      exact rfl

/-- C6: on a freshly created channel (header stamped with
`next_client_id = 1`), `N` consecutive shell connects return client ids
`1, 2, …, N` in that order (for any `N` not exceeding the u32 id
space). -/
theorem c6_connect_ids_are_consecutive (config : ChannelConfig) (n : Nat)
    (hn : n < U32) :
    ShellChannel.connectN (DaemonChannel.createHeader config) n =
      .ok (List.range' 1 n,
           { DaemonChannel.createHeader config with
             next_client_id := (1 + n) % U32 }) :=
  ShellChannel.connectN_range n (DaemonChannel.createHeader config) rfl
    (by show (1 : Nat) < U32; decide) (by show 1 + n ≤ U32; omega)

/-- Cache-line rounding only moves a size up, by less than a line. -/
theorem alignCL_bounds (n : Nat) (h : n + 63 < 2 ^ 64) :
    n ≤ alignCL n ∧ alignCL n ≤ n + 63 := by
  unfold alignCL CACHE_LINE_SIZE U64
  rw [Nat.mod_eq_of_lt (by omega)]
  omega

/-- C3 counterexample: on a fresh 2-slot queue, the first two pushes
succeed and the third fails — but after one successful pop the
IMMEDIATELY following push returns false, not true as claimed: the
failed third push already advanced `write_idx` to 3, so that push
claims slot `3 % 2 = 1`, which still holds the unconsumed second
command. -/
theorem c3_push_after_one_pop_still_fails :
    queueFullTrace = .ok (true, true, false, some (1, 1), false) := rfl

/-- C3 amended: with `cmd_slots = 2` and no consumption, a single
producer's first two `try_push` calls succeed and the third returns
false; after the consumer performs one successful `try_pop` (returning
the first command's producer id and length), the producer's immediately
following `try_push` still returns false (its claimed slot holds the
unconsumed second command), and the next `try_push` after that
succeeds. -/
theorem c3_backpressure_needs_two_retries (cid : Nat)
    (a b c d e buf : List Nat)
    (ha : a.length ≤ MAX_CMD_SIZE) (hb : b.length ≤ MAX_CMD_SIZE)
    (hc : c.length ≤ MAX_CMD_SIZE) (hd : d.length ≤ MAX_CMD_SIZE)
    (he : e.length ≤ MAX_CMD_SIZE) :
    ∃ q1 q2 q3 q4 q5 q6 buf1,
      MpscQueue.try_push (MpscQueue.init 2) cid a = .ok (true, q1) ∧
      MpscQueue.try_push q1 cid b = .ok (true, q2) ∧
      MpscQueue.try_push q2 cid c = .ok (false, q3) ∧
      MpscQueue.try_pop q3 buf = .ok (some (cid, a.length), q4, buf1) ∧
      MpscQueue.try_push q4 cid d = .ok (false, q5) ∧
      MpscQueue.try_push q5 cid e = .ok (true, q6) := by
  have step1 : MpscQueue.try_push (MpscQueue.init 2) cid a =
      .ok (true,
        (⟨1, 0, 2, [⟨2, cid, a.length, a ++ (List.replicate 4096 0).drop a.length⟩,
                    ⟨0, 0, 0, List.replicate 4096 0⟩]⟩ : MpscQueue)) :=
    MpscQueue.try_push_success (MpscQueue.init 2) cid a 0 1 ha (by decide)
      (by decide) (by decide) (by decide)
  have step2 : MpscQueue.try_push
      (⟨1, 0, 2, [⟨2, cid, a.length, a ++ (List.replicate 4096 0).drop a.length⟩,
                  ⟨0, 0, 0, List.replicate 4096 0⟩]⟩ : MpscQueue) cid b =
      .ok (true,
        (⟨2, 0, 2, [⟨2, cid, a.length, a ++ (List.replicate 4096 0).drop a.length⟩,
                    ⟨2, cid, b.length, b ++ (List.replicate 4096 0).drop b.length⟩]⟩ :
          MpscQueue)) :=
    MpscQueue.try_push_success _ cid b 1 2 hb (by exact two_ne_zero_nat)
      (by norm_num) (by norm_num [U64]) (by exact rfl)
  have step3 : MpscQueue.try_push
      (⟨2, 0, 2, [⟨2, cid, a.length, a ++ (List.replicate 4096 0).drop a.length⟩,
                  ⟨2, cid, b.length, b ++ (List.replicate 4096 0).drop b.length⟩]⟩ :
        MpscQueue) cid c =
      .ok (false,
        (⟨3, 0, 2, [⟨2, cid, a.length, a ++ (List.replicate 4096 0).drop a.length⟩,
                    ⟨2, cid, b.length, b ++ (List.replicate 4096 0).drop b.length⟩]⟩ :
          MpscQueue)) :=
    MpscQueue.try_push_fail _ cid c 0 3 hc (by exact two_ne_zero_nat)
      (by norm_num) (by norm_num [U64]) (by exact two_ne_zero_nat)
  have step4 : MpscQueue.try_pop
      (⟨3, 0, 2, [⟨2, cid, a.length, a ++ (List.replicate 4096 0).drop a.length⟩,
                  ⟨2, cid, b.length, b ++ (List.replicate 4096 0).drop b.length⟩]⟩ :
        MpscQueue) buf =
      .ok (some (cid, a.length),
        (⟨3, 1, 2, [⟨0, cid, a.length, a ++ (List.replicate 4096 0).drop a.length⟩,
                    ⟨2, cid, b.length, b ++ (List.replicate 4096 0).drop b.length⟩]⟩ :
          MpscQueue),
        (a ++ (List.replicate 4096 0).drop a.length).take
            (min a.length buf.length) ++
          buf.drop (min a.length buf.length)) :=
    MpscQueue.try_pop_ready _ buf 0 1 (by exact two_ne_zero_nat)
      (by norm_num) (by norm_num [U64]) (by exact rfl)
  have step5 : MpscQueue.try_push
      (⟨3, 1, 2, [⟨0, cid, a.length, a ++ (List.replicate 4096 0).drop a.length⟩,
                  ⟨2, cid, b.length, b ++ (List.replicate 4096 0).drop b.length⟩]⟩ :
        MpscQueue) cid d =
      .ok (false,
        (⟨4, 1, 2, [⟨0, cid, a.length, a ++ (List.replicate 4096 0).drop a.length⟩,
                    ⟨2, cid, b.length, b ++ (List.replicate 4096 0).drop b.length⟩]⟩ :
          MpscQueue)) :=
    MpscQueue.try_push_fail _ cid d 1 4 hd (by exact two_ne_zero_nat)
      (by norm_num) (by norm_num [U64]) (by exact two_ne_zero_nat)
  have step6 : MpscQueue.try_push
      (⟨4, 1, 2, [⟨0, cid, a.length, a ++ (List.replicate 4096 0).drop a.length⟩,
                  ⟨2, cid, b.length, b ++ (List.replicate 4096 0).drop b.length⟩]⟩ :
        MpscQueue) cid e =
      .ok (true,
        (⟨5, 1, 2, [⟨2, cid, e.length,
                      e ++ (a ++ (List.replicate 4096 0).drop a.length).drop
                        e.length⟩,
                    ⟨2, cid, b.length, b ++ (List.replicate 4096 0).drop b.length⟩]⟩ :
          MpscQueue)) :=
    MpscQueue.try_push_success _ cid e 0 5 he (by exact two_ne_zero_nat)
      (by norm_num) (by norm_num [U64]) (by exact rfl)
  exact ⟨_, _, _, _, _, _, _, step1, step2, step3, step4, step5, step6⟩

/-- Witness for C3 amended at concrete commands. -/
theorem c3_backpressure_needs_two_retries_witness :
    ∃ q1 q2 q3 q4 q5 q6 buf1,
      MpscQueue.try_push (MpscQueue.init 2) 1 [7] = .ok (true, q1) ∧
      MpscQueue.try_push q1 1 [8] = .ok (true, q2) ∧
      MpscQueue.try_push q2 1 [9] = .ok (false, q3) ∧
      MpscQueue.try_pop q3 [0] = .ok (some (1, 1), q4, buf1) ∧
      MpscQueue.try_push q4 1 [10] = .ok (false, q5) ∧
      MpscQueue.try_push q5 1 [11] = .ok (true, q6) :=
  c3_backpressure_needs_two_retries 1 [7] [8] [9] [10] [11] [0] (by decide)
    (by decide) (by decide) (by decide) (by decide)

/-- C8: the header fields stamped by `DaemonChannel::create` satisfy
the layout invariants — the seqlock sub-header plus payload fit below
`cmd_queue_offset`, and the queue sub-header plus all slots fit inside
`ChannelHeader::total_size` — for every configuration whose sizes stay
inside the (generous) bounds `data_size ≤ 2^48`, `cmd_slots ≤ 2^32`, so
that none of the usize layout arithmetic wraps. -/
theorem c8_layout_offsets_fit (config : ChannelConfig)
    (hds : config.data_size ≤ 2 ^ 48) (hcs : config.cmd_slots ≤ 2 ^ 32) :
    (DaemonChannel.createHeader config).seqlock_offset + seqLockHeaderSize +
        (DaemonChannel.createHeader config).data_size ≤
      (DaemonChannel.createHeader config).cmd_queue_offset ∧
    (DaemonChannel.createHeader config).cmd_queue_offset +
        mpscQueueHeaderSize +
        (DaemonChannel.createHeader config).cmd_slots * commandSlotSize ≤
      config.total_size := by
  obtain ⟨ds, cs, mc⟩ := config
  simp only [ChannelConfig.data_size, ChannelConfig.cmd_slots] at hds hcs
  simp only [DaemonChannel.createHeader, ChannelConfig.total_size,
    size_for_slots, seqLockHeaderSize, mpscQueueHeaderSize, channelHeaderSize,
    commandSlotSize, U64]
  have e1 : (128 + ds) % 2 ^ 64 = 128 + ds := Nat.mod_eq_of_lt (by omega)
  have e2 : cs * 4164 % 2 ^ 64 = cs * 4164 := Nat.mod_eq_of_lt (by omega)
  rw [e1, e2]
  have e3 : (192 + cs * 4164) % 2 ^ 64 = 192 + cs * 4164 :=
    Nat.mod_eq_of_lt (by omega)
  rw [e3]
  have h72 : alignCL 72 = 128 := by decide
  rw [h72]
  have hA := alignCL_bounds (128 + ds) (by omega)
  have hB := alignCL_bounds (192 + cs * 4164) (by omega)
  have e4 : alignCL (128 + ds) % 2 ^ 64 = alignCL (128 + ds) :=
    Nat.mod_eq_of_lt (by omega)
  have e5 : alignCL (192 + cs * 4164) % 2 ^ 64 = alignCL (192 + cs * 4164) :=
    Nat.mod_eq_of_lt (by omega)
  rw [e4, e5]
  have e6 : (128 + alignCL (128 + ds)) % 2 ^ 64 = 128 + alignCL (128 + ds) :=
    Nat.mod_eq_of_lt (by omega)
  have e7 : (128 + alignCL (128 + ds) + alignCL (192 + cs * 4164)) % 2 ^ 64 =
      128 + alignCL (128 + ds) + alignCL (192 + cs * 4164) :=
    Nat.mod_eq_of_lt (by omega)
  rw [e6, e7]
  omega

/-- Witness for C8 at the default configuration. -/
theorem c8_layout_offsets_fit_witness :
    (DaemonChannel.createHeader ChannelConfig.default).seqlock_offset +
        seqLockHeaderSize +
        (DaemonChannel.createHeader ChannelConfig.default).data_size ≤
      (DaemonChannel.createHeader ChannelConfig.default).cmd_queue_offset ∧
    (DaemonChannel.createHeader ChannelConfig.default).cmd_queue_offset +
        mpscQueueHeaderSize +
        (DaemonChannel.createHeader ChannelConfig.default).cmd_slots *
          commandSlotSize ≤
      ChannelConfig.default.total_size :=
  c8_layout_offsets_fit ChannelConfig.default (by decide) (by decide)

/-- Witness for C6: three connects on a default-config channel yield
ids 1, 2, 3. -/
theorem c6_connect_ids_are_consecutive_witness :
    ShellChannel.connectN (DaemonChannel.createHeader ChannelConfig.default) 3 =
      .ok ([1, 2, 3],
           { DaemonChannel.createHeader ChannelConfig.default with
             next_client_id := (1 + 3) % U32 }) :=
  c6_connect_ids_are_consecutive ChannelConfig.default 3 (by decide)

